import Mathlib

/-!
# Verification of the love-letter-server game engines

Shallow embedding of the two game engines of the repository:
* `MemoryBattleGame` from `src/games/memory-battle/index.js`
* `LoveLetterGame` from `src/games/love-letter` (file `src/unnamed/part_001`)
together with the `playCard` orchestration of `src/server.js`.

JavaScript `Map`s (insertion-ordered, unique keys) are embedded as ordered
lists of records; `Map.set` replaces in place when the key exists and appends
otherwise.  JavaScript arrays are lists in the same order; `arr.pop()` takes
the last element.  `Math.random()`-driven shuffles are parametrised by a
stream `rand : Nat → Nat` of random draws, reduced modulo the live range,
exactly mirroring `Math.floor(Math.random() * (i + 1))`.
-/

set_option maxHeartbeats 1000000

namespace GameHub

/-! ## Fisher–Yates shuffle (shuffleArray / shuffleDeck in the source)

Both engines use the identical in-place Fisher–Yates loop
`for (let i = n-1; i > 0; i--) { j = floor(random()*(i+1)); swap(i, j) }`.
-/

/-- One JS destructuring swap `[a[i], a[j]] = [a[j], a[i]]` (indices in range
whenever the loop executes; out-of-range is the identity). -/
def swapIdx (l : List α) (i j : Nat) : List α :=
  match l.get? i, l.get? j with
  | some a, some b => (l.set i b).set j a
  | _, _ => l

/-- The shuffle loop, counting the index `i` down from `n-1` to `1`. -/
def shuffleGo (rand : Nat → Nat) : Nat → List α → List α
  | 0, l => l
  | i + 1, l => shuffleGo rand i (swapIdx l (i + 1) (rand (i + 1) % (i + 2)))

/-- `shuffleArray` / `shuffleDeck` of the source, with the random draws
supplied as a stream. -/
def shuffleList (rand : Nat → Nat) (l : List α) : List α :=
  shuffleGo rand (l.length - 1) l

/-! ## Memory Battle engine (`src/games/memory-battle/index.js`) -/

/-- One entry of `CARD_SYMBOLS`. -/
structure SymbolEntry where
  id : Nat
  symbol : String
  name : String
deriving DecidableEq

/-- `CARD_SYMBOLS`: the 18 selectable pairing symbols. -/
def cardSymbols : List SymbolEntry :=
  [⟨0, "🦊", "Fox"⟩, ⟨1, "🐺", "Wolf"⟩, ⟨2, "🦁", "Lion"⟩, ⟨3, "🐯", "Tiger"⟩,
   ⟨4, "🦋", "Butterfly"⟩, ⟨5, "🌸", "Cherry Blossom"⟩, ⟨6, "🌙", "Moon"⟩,
   ⟨7, "⭐", "Star"⟩, ⟨8, "🔮", "Crystal Ball"⟩, ⟨9, "🗡️", "Sword"⟩,
   ⟨10, "🛡️", "Shield"⟩, ⟨11, "🏰", "Castle"⟩, ⟨12, "🐉", "Dragon"⟩,
   ⟨13, "🧙", "Wizard"⟩, ⟨14, "👑", "Crown"⟩, ⟨15, "💎", "Gem"⟩,
   ⟨16, "🔥", "Fire"⟩, ⟨17, "💧", "Water"⟩]

/-- One entry of `GRID_CONFIGS`. -/
structure GridConfig where
  rows : Nat
  cols : Nat
  totalCards : Nat
  totalPairs : Nat
deriving DecidableEq

/-- `GRID_CONFIGS` as a partial lookup on the grid-size key. -/
def gridConfigs : String → Option GridConfig
  | "4x4" => some ⟨4, 4, 16, 8⟩
  | "4x6" => some ⟨4, 6, 24, 12⟩
  | "6x6" => some ⟨6, 6, 36, 18⟩
  | _ => none

/-- `TURN_TIME_LIMIT` (seconds). -/
def TURN_TIME_LIMIT : Nat := 30

/-- A board card as stored in `this.cards`. -/
structure MCard where
  id : Nat
  symbolId : Nat
  symbol : String
  isFlipped : Bool
  isMatched : Bool
  matchedBy : Option Nat
deriving DecidableEq

/-- A Memory Battle participant record as stored in `this.players`. -/
structure MPlayer where
  id : String
  name : String
  avatar : String
  score : Nat
  isReady : Bool
deriving DecidableEq

/-- Memory Battle phases. -/
inductive MPhase
  | WAITING
  | PLAYING
  | FINISHED
deriving DecidableEq

/-- `generateCards(gridSize)`: pick `totalPairs` symbols from a shuffle of
`CARD_SYMBOLS`, lay each down twice, and shuffle the board.  The two
`Math.random()` uses are the streams `rand1` (symbol shuffle) and `rand2`
(board shuffle). -/
def generateCards (gridSize : String) (rand1 rand2 : Nat → Nat) : List MCard :=
  let config := (gridConfigs gridSize).getD ⟨4, 4, 16, 8⟩
  let numPairs := config.totalPairs
  let selectedSymbols := (shuffleList rand1 cardSymbols).take numPairs
  let cards := selectedSymbols.enum.flatMap (fun p =>
    [{ id := p.1 * 2, symbolId := p.2.id, symbol := p.2.symbol,
       isFlipped := false, isMatched := false, matchedBy := none },
     { id := p.1 * 2 + 1, symbolId := p.2.id, symbol := p.2.symbol,
       isFlipped := false, isMatched := false, matchedBy := none }])
  shuffleList rand2 cards

/-- The mutable state of `class MemoryBattleGame`.  The JS timer handle
(`turnTimer`) lives outside the game rules and is not part of the model. -/
structure MemoryBattleGame where
  roomId : String
  phase : MPhase
  gridSize : String
  cards : List MCard
  players : List MPlayer
  currentPlayerIndex : Nat
  flippedIndices : List Nat
  matchedPairs : Nat
  totalPairs : Nat
  turnTimeLeft : Nat
deriving DecidableEq

/-- The constructor `new MemoryBattleGame(roomId)`. -/
def MemoryBattleGame.init (roomId : String) : MemoryBattleGame where
  roomId := roomId
  phase := .WAITING
  gridSize := "4x4"
  cards := []
  players := []
  currentPlayerIndex := 0
  flippedIndices := []
  matchedPairs := 0
  totalPairs := 8
  turnTimeLeft := TURN_TIME_LIMIT

/-- JS `Map.set` on the players map: replace in place when the key exists,
append otherwise. -/
def msetPlayer (ps : List MPlayer) (pid : String) (p : MPlayer) : List MPlayer :=
  if ps.any (fun q => q.id = pid) then
    ps.map (fun q => if q.id = pid then p else q)
  else ps ++ [p]

/-- `addPlayer(playerId, playerName)`: reject at capacity 2, otherwise
`Map.set` a fresh record (avatar depends on the size before insertion). -/
def MemoryBattleGame.addPlayer (g : MemoryBattleGame) (playerId playerName : String) :
    MemoryBattleGame × Bool :=
  if 2 ≤ g.players.length then (g, false)
  else
    let fresh : MPlayer :=
      { id := playerId, name := playerName,
        avatar := if g.players.length = 0 then "👤" else "👥",
        score := 0, isReady := false }
    ({ g with players := msetPlayer g.players playerId fresh }, true)

/-- `removePlayer(playerId)`: delete from the map and fall back to WAITING
when a game was running (the timer clearing is outside the model). -/
def MemoryBattleGame.removePlayer (g : MemoryBattleGame) (playerId : String) :
    MemoryBattleGame :=
  let g1 := { g with players := g.players.filter (fun q => q.id ≠ playerId) }
  if g1.phase = .PLAYING then { g1 with phase := .WAITING } else g1

/-- `setGridSize(gridSize)`: only valid keys take effect. -/
def MemoryBattleGame.setGridSize (g : MemoryBattleGame) (gridSize : String) :
    MemoryBattleGame :=
  match gridConfigs gridSize with
  | some cfg => { g with gridSize := gridSize, totalPairs := cfg.totalPairs }
  | none => g

/-- `startGame()`: requires exactly 2 players; resets turn state and scores
and generates a fresh board.  `GRID_CONFIGS[this.gridSize]` is always a
valid lookup (`gridSize` only ever holds valid keys); the `getD` default is
dead. -/
def MemoryBattleGame.startGame (g : MemoryBattleGame) (rand1 rand2 : Nat → Nat) :
    MemoryBattleGame × Bool :=
  if g.players.length ≠ 2 then (g, false)
  else
    ({ g with
        phase := .PLAYING
        currentPlayerIndex := 0
        flippedIndices := []
        matchedPairs := 0
        turnTimeLeft := TURN_TIME_LIMIT
        players := g.players.map (fun p => { p with score := 0 })
        cards := generateCards g.gridSize rand1 rand2
        totalPairs := ((gridConfigs g.gridSize).getD ⟨4, 4, 16, 8⟩).totalPairs },
      true)

/-- `getCurrentPlayer()`: index into the insertion-ordered player array. -/
def MemoryBattleGame.getCurrentPlayer (g : MemoryBattleGame) : Option MPlayer :=
  g.players.get? g.currentPlayerIndex

/-- Result of `flipCard` (the echoed card payload of the success branch is
response formatting and carries no extra state). -/
structure FlipResult where
  success : Bool
  message : String
deriving DecidableEq

/-- `flipCard(playerId, cardIndex)`: validations in source order (turn,
index range, card not flipped/matched, at most two flips), then flip. -/
def MemoryBattleGame.flipCard (g : MemoryBattleGame) (playerId : String)
    (cardIndex : Int) : MemoryBattleGame × FlipResult :=
  match g.getCurrentPlayer with
  | none => (g, ⟨false, "Not your turn"⟩)
  | some currentPlayer =>
    if currentPlayer.id ≠ playerId then (g, ⟨false, "Not your turn"⟩)
    else if h : cardIndex < 0 ∨ (g.cards.length : Int) ≤ cardIndex then
      (g, ⟨false, "Invalid card index"⟩)
    else
      let idx := cardIndex.toNat
      let card := g.cards.get ⟨idx, by omega⟩
      if card.isFlipped ∨ card.isMatched then
        (g, ⟨false, "Card already flipped or matched"⟩)
      else if 2 ≤ g.flippedIndices.length then
        (g, ⟨false, "Two cards already flipped"⟩)
      else
        ({ g with
            cards := g.cards.set idx { card with isFlipped := true }
            flippedIndices := g.flippedIndices ++ [idx] },
          ⟨true, ""⟩)

/-- The object returned by `checkMatch` on the match / non-match branches
(fields absent in the non-match branch are `none`). -/
structure MatchResult where
  isMatch : Bool
  cardIndices : Nat × Nat
  playerId : Option String := none
  playerScore : Option Nat := none
  matchedPairs : Option Nat := none
  totalPairs : Option Nat := none
  isGameOver : Option Bool := none
deriving DecidableEq

/-- `checkMatch()`: `null` unless exactly two cards are flipped; on equal
symbols mark both matched, credit and keep the current actor, count the
pair and finish the game when all pairs are matched; otherwise flip both
back and pass the turn.  An out-of-range flipped index would throw in JS
before any mutation (caught by the server's message handler), hence the
state-preserving `none` fallback. -/
def MemoryBattleGame.checkMatch (g : MemoryBattleGame) :
    MemoryBattleGame × Option MatchResult :=
  match g.flippedIndices with
  | [idx1, idx2] =>
    match g.cards.get? idx1, g.cards.get? idx2 with
    | some card1, some card2 =>
      if card1.symbolId = card2.symbolId then
        let cards' := (g.cards.set idx1
            { card1 with isMatched := true, matchedBy := some g.currentPlayerIndex }).set idx2
            { card2 with isMatched := true, matchedBy := some g.currentPlayerIndex }
        let matchedPairs' := g.matchedPairs + 1
        let players' :=
          match g.players.get? g.currentPlayerIndex with
          | some p => g.players.set g.currentPlayerIndex { p with score := p.score + 1 }
          | none => g.players
        let phase' := if matchedPairs' = g.totalPairs then MPhase.FINISHED else g.phase
        let res : MatchResult :=
          { isMatch := true, cardIndices := (idx1, idx2),
            playerId := (players'.get? g.currentPlayerIndex).map (fun p => p.id),
            playerScore := (players'.get? g.currentPlayerIndex).map (fun p => p.score),
            matchedPairs := some matchedPairs',
            totalPairs := some g.totalPairs,
            isGameOver := some (phase' = MPhase.FINISHED) }
        ({ g with
            cards := cards'
            matchedPairs := matchedPairs'
            players := players'
            flippedIndices := []
            phase := phase' },
          some res)
      else
        ({ g with
            cards := (g.cards.set idx1 { card1 with isFlipped := false }).set idx2
              { card2 with isFlipped := false }
            flippedIndices := []
            currentPlayerIndex := (g.currentPlayerIndex + 1) % 2 },
          some { isMatch := false, cardIndices := (idx1, idx2) })
    | _, _ => (g, none)
  | _ => (g, none)

/-- `switchTurn()`: pass the turn, flip any pending cards back, reset the
clock (used by the turn-timer timeout path). -/
def MemoryBattleGame.switchTurn (g : MemoryBattleGame) : MemoryBattleGame :=
  { g with
      currentPlayerIndex := (g.currentPlayerIndex + 1) % 2
      cards := g.flippedIndices.foldl
        (fun cs idx =>
          match cs.get? idx with
          | some c => cs.set idx { c with isFlipped := false }
          | none => cs)
        g.cards
      flippedIndices := []
      turnTimeLeft := TURN_TIME_LIMIT }

/-- The per-player slice of the public snapshot. -/
structure PubPlayer where
  id : String
  name : String
  avatar : String
  score : Nat
  isReady : Bool
deriving DecidableEq

/-- The per-card slice of the public snapshot (symbols always included). -/
structure PubCard where
  id : Nat
  isFlipped : Bool
  isMatched : Bool
  matchedBy : Option Nat
  symbol : String
  symbolId : Nat
deriving DecidableEq

/-- The full public snapshot returned by `getPublicState()`. -/
structure PubState where
  roomId : String
  gridSize : String
  players : List PubPlayer
  cards : List PubCard
  currentPlayerIndex : Nat
  matchedPairs : Nat
  totalPairs : Nat
  phase : MPhase
  turnTimeLeft : Nat
deriving DecidableEq

/-- `getPublicState()`: broadcast snapshot; every card keeps its `symbol`
and `symbolId` (the source marks this as a deliberate fix). -/
def MemoryBattleGame.getPublicState (g : MemoryBattleGame) : PubState where
  roomId := g.roomId
  gridSize := g.gridSize
  players := g.players.map (fun p =>
    { id := p.id, name := p.name, avatar := p.avatar, score := p.score,
      isReady := p.isReady })
  cards := g.cards.map (fun c =>
    { id := c.id, isFlipped := c.isFlipped, isMatched := c.isMatched,
      matchedBy := c.matchedBy, symbol := c.symbol, symbolId := c.symbolId })
  currentPlayerIndex := g.currentPlayerIndex
  matchedPairs := g.matchedPairs
  totalPairs := g.totalPairs
  phase := g.phase
  turnTimeLeft := g.turnTimeLeft

/-! ## Love Letter engine (`src/games/love-letter`, file `src/unnamed/part_001`) -/

/-- The eight card types of `CARD_TYPES`, in `Object.entries` order. -/
inductive CardType
  | GUARD
  | PRIEST
  | BARON
  | HANDMAID
  | PRINCE
  | KING
  | COUNTESS
  | PRINCESS
deriving DecidableEq

/-- A deck card `{ id, type, value }` as built by `initDeck`. -/
structure Card where
  id : Nat
  type : CardType
  value : Nat
deriving DecidableEq

/-- A Love Letter participant record as stored in `this.players`.
`protected` is a Lean keyword, hence `protectedFlag`. -/
structure LPlayer where
  id : String
  name : String
  hand : List Card
  discardPile : List Card
  eliminated : Bool
  protectedFlag : Bool
  tokens : Nat
deriving DecidableEq

/-- Love Letter phases used by the module and the server. -/
inductive LPhase
  | WAITING
  | PLAYING
  | GAME_OVER
deriving DecidableEq

/-- The mutable state of `class LoveLetterGame`. -/
structure LoveLetterGame where
  roomId : String
  players : List LPlayer
  deck : List Card
  removedCards : List Card
  currentPlayerIndex : Nat
  phase : LPhase
deriving DecidableEq

/-- The 16 cards laid down by `initDeck` before the shuffle: counts
5,2,2,2,2,1,1,1 for values 1–8, ids assigned in construction order. -/
def baseDeck : List Card :=
  [⟨0, .GUARD, 1⟩, ⟨1, .GUARD, 1⟩, ⟨2, .GUARD, 1⟩, ⟨3, .GUARD, 1⟩, ⟨4, .GUARD, 1⟩,
   ⟨5, .PRIEST, 2⟩, ⟨6, .PRIEST, 2⟩,
   ⟨7, .BARON, 3⟩, ⟨8, .BARON, 3⟩,
   ⟨9, .HANDMAID, 4⟩, ⟨10, .HANDMAID, 4⟩,
   ⟨11, .PRINCE, 5⟩, ⟨12, .PRINCE, 5⟩,
   ⟨13, .KING, 6⟩, ⟨14, .COUNTESS, 7⟩, ⟨15, .PRINCESS, 8⟩]

/-- `initDeck()`: lay down the 16 cards and shuffle (random stream
parametrised as elsewhere). -/
def initDeck (rand : Nat → Nat) : List Card :=
  shuffleList rand baseDeck

/-- `drawCard()` = `deck.pop() || null`: take the last array element;
`none` and an unchanged deck when empty. -/
def drawCardFrom (deck : List Card) : Option Card × List Card :=
  (deck.getLast?, deck.dropLast)

/-- `players.get(id)` on the insertion-ordered map. -/
def LoveLetterGame.getPlayer (g : LoveLetterGame) (pid : String) : Option LPlayer :=
  g.players.find? (fun p => p.id = pid)

/-- Rewrite the single map entry with this id (ids are unique map keys). -/
def LoveLetterGame.updatePlayer (g : LoveLetterGame) (pid : String)
    (f : LPlayer → LPlayer) : LoveLetterGame :=
  { g with players := g.players.map (fun p => if p.id = pid then f p else p) }

/-- `getActivePlayers()`: the non-eliminated participants, in map order. -/
def LoveLetterGame.getActivePlayers (g : LoveLetterGame) : List LPlayer :=
  g.players.filter (fun p => !p.eliminated)

/-- `getCurrentPlayer()`: `active[currentPlayerIndex % active.length]`,
`null` when no one is active. -/
def LoveLetterGame.getCurrentPlayer (g : LoveLetterGame) : Option LPlayer :=
  let active := g.getActivePlayers
  if active.length = 0 then none
  else active.get? (g.currentPlayerIndex % active.length)

/-- `isRoundOver()`. -/
def LoveLetterGame.isRoundOver (g : LoveLetterGame) : Bool :=
  g.getActivePlayers.length ≤ 1 || g.deck.length = 0

/-- `hand.reduce((sum, c) => sum + c.value, 0)`. -/
def handValue (p : LPlayer) : Nat :=
  (p.hand.map Card.value).sum

/-- `determineRoundWinner()`: the sole active participant, or the running
first-encountered maximum of hand values (accumulator starts at `-1`). -/
def LoveLetterGame.determineRoundWinner (g : LoveLetterGame) : Option LPlayer :=
  let active := g.getActivePlayers
  if active.length = 1 then active.get? 0
  else
    (active.foldl
      (fun (acc : Option LPlayer × Int) p =>
        if (handValue p : Int) > acc.2 then (some p, (handValue p : Int)) else acc)
      (none, -1)).1

/-- `mustPlayCountess(player)`. -/
def mustPlayCountess (player : LPlayer) : Bool :=
  player.hand.any (fun c => c.type = .COUNTESS) &&
    player.hand.any (fun c => c.type = .KING || c.type = .PRINCE)

/-- The `k` leading `removedCards.push(this.drawCard())` calls of
`startRound` (the deck holds 16 cards there, so the pops never miss; a
missed pop would push `null` in JS and is modelled as a skip). -/
def removeTop : Nat → List Card → List Card → List Card × List Card
  | 0, deck, removed => (deck, removed)
  | k + 1, deck, removed =>
    match deck.getLast? with
    | some c => removeTop k deck.dropLast (removed ++ [c])
    | none => removeTop k deck removed

/-- The dealing loop of `startRound`: each participant in map order pushes
one drawn card (same remark as `removeTop` about the impossible empty
deck). -/
def dealLoop : List LPlayer → List Card → List LPlayer × List Card
  | [], deck => ([], deck)
  | p :: ps, deck =>
    match deck.getLast? with
    | some c =>
      let r := dealLoop ps deck.dropLast
      ({ p with hand := p.hand ++ [c] } :: r.1, r.2)
    | none =>
      let r := dealLoop ps deck
      (p :: r.1, r.2)

/-- The per-participant reset at the top of `startRound()`. -/
def resetPlayer (p : LPlayer) : LPlayer :=
  { p with hand := [], discardPile := [], eliminated := false,
           protectedFlag := false }

/-- `startRound()`: reset every participant's round state, build and
shuffle a fresh deck, remove 1 face-down card (plus 3 more in a
2-participant round), deal 1 card each, and enter PLAYING with the first
participant as current actor. -/
def LoveLetterGame.startRound (g : LoveLetterGame) (rand : Nat → Nat) :
    LoveLetterGame :=
  let players0 := g.players.map resetPlayer
  let deck0 := initDeck rand
  let k := if players0.length = 2 then 4 else 1
  let dr := removeTop k deck0 []
  let pd := dealLoop players0 dr.1
  { g with players := pd.1, deck := pd.2, removedCards := dr.2,
           currentPlayerIndex := 0, phase := .PLAYING }

/-- The structured result of `executeCard` (`privateInfo.targetCard` may be
`undefined` when the target's hand is empty, hence the nested option). -/
structure ExecResult where
  success : Bool
  message : String
  privateInfo : Option (Option Card) := none
  newCard : Option Card := none
deriving DecidableEq

/-- `target.eliminated = true; discardPile.push(...hand); hand = []`. -/
def eliminateIntoDiscard (p : LPlayer) : LPlayer :=
  { p with eliminated := true, discardPile := p.discardPile ++ p.hand, hand := [] }

/-- `executeCard(player, card, target, guessType)`, one branch per card
type, in source order.  `player` and `target` are the records the caller
fetched from the map; mutations go back through the map by id, which
coincides with the JS in-place object mutation (ids are unique keys, and
every branch reads its inputs before writing). -/
def LoveLetterGame.executeCard (g : LoveLetterGame) (player : LPlayer)
    (card : Card) (target : Option LPlayer) (guessType : Option CardType) :
    LoveLetterGame × ExecResult :=
  match card.type with
  | .GUARD =>
    match guessType with
    | none => (g, { success := false, message := "無效猜測" })
    | some gt =>
      if gt = .GUARD then (g, { success := false, message := "無效猜測" })
      else
        match target with
        | none => (g, { success := false, message := "無效目標" })
        | some t =>
          if t.protectedFlag then (g, { success := false, message := "無效目標" })
          else if t.hand.any (fun c => c.type = gt) then
            (g.updatePlayer t.id eliminateIntoDiscard,
             { success := true, message := "猜對了！出局" })
          else (g, { success := true, message := "猜錯了" })
  | .PRIEST =>
    match target with
    | none => (g, { success := false, message := "無效目標" })
    | some t =>
      if t.protectedFlag then (g, { success := false, message := "無效目標" })
      else (g, { success := true, message := "查看了手牌",
                 privateInfo := some t.hand.head? })
  | .BARON =>
    match target with
    | none => (g, { success := false, message := "無效目標" })
    | some t =>
      if t.protectedFlag then (g, { success := false, message := "無效目標" })
      else
        let playerCard := player.hand.find? (fun c => c.type ≠ .BARON)
        let playerValue := (playerCard.map Card.value).getD 0
        let targetValue := (t.hand.head?.map Card.value).getD 0
        if playerValue > targetValue then
          (g.updatePlayer t.id eliminateIntoDiscard,
           { success := true, message := "出局" })
        else if targetValue > playerValue then
          (g.updatePlayer player.id eliminateIntoDiscard,
           { success := true, message := "出局" })
        else (g, { success := true, message := "平手！" })
  | .HANDMAID =>
    (g.updatePlayer player.id (fun p => { p with protectedFlag := true }),
     { success := true, message := "獲得保護" })
  | .PRINCE =>
    let princeTarget := target.getD player
    if princeTarget.id ≠ player.id ∧ princeTarget.protectedFlag then
      (g, { success := false, message := "目標受保護" })
    else if princeTarget.hand.any (fun c => c.type = .PRINCESS) then
      (g.updatePlayer princeTarget.id eliminateIntoDiscard,
       { success := true, message := "棄掉公主，出局！" })
    else if 0 < princeTarget.hand.length then
      let g1 := g.updatePlayer princeTarget.id (fun p =>
        { p with discardPile := p.discardPile ++ p.hand, hand := [] })
      let dc := drawCardFrom g1.deck
      let g2 := { g1 with deck := dc.2 }
      let g3 :=
        match dc.1 with
        | some c => g2.updatePlayer princeTarget.id (fun p =>
            { p with hand := p.hand ++ [c] })
        | none => g2
      (g3, { success := true, message := "棄牌重抽", newCard := dc.1 })
    else (g, { success := true, message := "無效果" })
  | .KING =>
    match target with
    | none => (g, { success := false, message := "無效目標" })
    | some t =>
      if t.protectedFlag then (g, { success := false, message := "無效目標" })
      else
        let pCards := player.hand.filter (fun c => c.type ≠ .KING)
        let tCards := t.hand
        let g1 := g.updatePlayer player.id (fun p =>
          { p with hand := p.hand.filter (fun c => c.type = .KING) ++ tCards })
        let g2 := g1.updatePlayer t.id (fun p => { p with hand := pCards })
        (g2, { success := true, message := "交換了手牌" })
  | .COUNTESS =>
    (g, { success := true, message := "打出伯爵夫人" })
  | .PRINCESS =>
    (g.updatePlayer player.id eliminateIntoDiscard,
     { success := true, message := "打出公主，出局！" })

/-- `addPlayer(playerId, playerName)` of the Love Letter engine: reject at
capacity 4 (`maxPlayers`), otherwise `Map.set` a fresh record. -/
def LoveLetterGame.addPlayer (g : LoveLetterGame) (playerId playerName : String) :
    LoveLetterGame × Bool :=
  if 4 ≤ g.players.length then (g, false)
  else
    let fresh : LPlayer :=
      { id := playerId, name := playerName, hand := [], discardPile := [],
        eliminated := false, protectedFlag := false, tokens := 0 }
    let players' :=
      if g.players.any (fun q => q.id = playerId) then
        g.players.map (fun q => if q.id = playerId then fresh else q)
      else g.players ++ [fresh]
    ({ g with players := players' }, true)

/-- Result of the server-side `playCard` (ok = no ERROR unicast). -/
structure PlayResult where
  ok : Bool
  message : String
deriving DecidableEq

/-- `playCard(room, data)` of `src/server.js`, up to and including the
discard step (`hand.splice(cardIndex, 1); discardPile.push(card)`); the
subsequent broadcasting and `checkRoundEnd` turn advancement are outside
this function's mutations of hands and piles. -/
def playCard (g : LoveLetterGame) (playerId : String) (cardIndex : Int)
    (targetId : Option String) (guessType : Option CardType) :
    LoveLetterGame × PlayResult :=
  match g.getPlayer playerId, g.getCurrentPlayer with
  | some player, some current =>
    if current.id ≠ playerId then (g, ⟨false, "不是你的回合"⟩)
    else if h : cardIndex < 0 ∨ (player.hand.length : Int) ≤ cardIndex then
      (g, ⟨false, "無效的卡牌"⟩)
    else
      let idx := cardIndex.toNat
      let card := player.hand.get ⟨idx, by omega⟩
      if mustPlayCountess player ∧ card.type ≠ .COUNTESS then
        (g, ⟨false, "你必須打出伯爵夫人！"⟩)
      else
        let target := targetId.bind g.getPlayer
        let r := g.executeCard player card target guessType
        if r.2.success = false then (r.1, ⟨false, r.2.message⟩)
        else
          let g2 := r.1.updatePlayer playerId (fun p =>
            { p with hand := p.hand.eraseIdx idx,
                     discardPile := p.discardPile ++ [card] })
          (g2, ⟨true, r.2.message⟩)
  | _, _ => (g, ⟨false, "不是你的回合"⟩)

/-- Card accounting for the conservation claims: deck + removed set + every
hand and discard pile. -/
def llAllCards (g : LoveLetterGame) : List Card :=
  g.deck ++ g.removedCards ++
    g.players.flatMap (fun p => p.hand ++ p.discardPile)

/-- Size of the card accounting. -/
def llTotalCards (g : LoveLetterGame) : Nat :=
  (llAllCards g).length

/-! ## Lemmas about the shuffle -/

theorem get_cons_set_perm : ∀ (xs : List α) (k : Nat) (hk : k < xs.length) (x : α),
    List.Perm (xs.get ⟨k, hk⟩ :: xs.set k x) (x :: xs)
  | y :: ys, 0, _, x => List.Perm.swap x y ys
  | y :: ys, k + 1, hk, x => by
    have hk' : k < ys.length := by simpa using hk
    have ih := get_cons_set_perm ys k hk' x
    have step1 : List.Perm (ys.get ⟨k, hk'⟩ :: y :: ys.set k x)
        (y :: ys.get ⟨k, hk'⟩ :: ys.set k x) :=
      List.Perm.swap y (ys.get ⟨k, hk'⟩) (ys.set k x)
    have step2 : List.Perm (y :: ys.get ⟨k, hk'⟩ :: ys.set k x) (y :: x :: ys) :=
      ih.cons y
    have step3 : List.Perm (y :: x :: ys) (x :: y :: ys) := List.Perm.swap x y ys
    exact (step1.trans step2).trans step3

theorem set_set_swap_perm : ∀ (l : List α) (i j : Nat) (hi : i < l.length)
    (hj : j < l.length),
    List.Perm ((l.set i (l.get ⟨j, hj⟩)).set j (l.get ⟨i, hi⟩)) l
  | x :: xs, 0, 0, _, _ => by simp
  | x :: xs, 0, k + 1, _, hj => by
    simpa using get_cons_set_perm xs k (by simpa using hj) x
  | x :: xs, m + 1, 0, hi, _ => by
    simpa using get_cons_set_perm xs m (by simpa using hi) x
  | x :: xs, m + 1, k + 1, hi, hj => by
    simpa using
      (set_set_swap_perm xs m k (by simpa using hi) (by simpa using hj)).cons x

theorem swapIdx_perm (l : List α) (i j : Nat) : List.Perm (swapIdx l i j) l := by
  unfold swapIdx
  cases hi : l.get? i with
  | none => exact List.Perm.refl l
  | some a =>
    cases hj : l.get? j with
    | none => exact List.Perm.refl l
    | some b =>
      rw [List.get?_eq_some] at hi hj
      obtain ⟨hi', rfl⟩ := hi
      obtain ⟨hj', rfl⟩ := hj
      exact set_set_swap_perm l i j hi' hj'

theorem shuffleGo_perm (rand : Nat → Nat) :
    ∀ (n : Nat) (l : List α), List.Perm (shuffleGo rand n l) l
  | 0, _ => List.Perm.refl _
  | n + 1, l =>
    (shuffleGo_perm rand n _).trans (swapIdx_perm l (n + 1) (rand (n + 1) % (n + 2)))

theorem shuffleList_perm (rand : Nat → Nat) (l : List α) :
    List.Perm (shuffleList rand l) l :=
  shuffleGo_perm rand (l.length - 1) l

theorem initDeck_perm (rand : Nat → Nat) :
    List.Perm (initDeck rand) baseDeck :=
  shuffleList_perm rand baseDeck

theorem initDeck_length (rand : Nat → Nat) : (initDeck rand).length = 16 :=
  (initDeck_perm rand).length_eq

/-! ## Lemmas about round setup -/

theorem getLast?_some_of_ne_nil : ∀ (l : List α), l ≠ [] → ∃ c, l.getLast? = some c
  | [x], _ => ⟨x, rfl⟩
  | x :: y :: ys, _ => by
    obtain ⟨c, hc⟩ := getLast?_some_of_ne_nil (y :: ys) (by simp)
    exact ⟨c, by rw [List.getLast?_cons_cons]; exact hc⟩

theorem dropLast_append_getLast?_eq : ∀ (l : List α) (c : α),
    l.getLast? = some c → l.dropLast ++ [c] = l
  | [x], c, h => by
    simp only [List.getLast?_singleton, Option.some.injEq] at h
    simp [h]
  | x :: y :: ys, c, h => by
    rw [List.getLast?_cons_cons] at h
    rw [List.dropLast_cons₂, List.cons_append,
      dropLast_append_getLast?_eq (y :: ys) c h]

theorem removeTop_succ (k : Nat) (deck removed : List Card) :
    removeTop (k + 1) deck removed =
      match deck.getLast? with
      | some c => removeTop k deck.dropLast (removed ++ [c])
      | none => removeTop k deck removed := rfl

theorem removeTop_conserve :
    ∀ (k : Nat) (deck removed : List Card) (a : Card),
    (removeTop k deck removed).1.count a + (removeTop k deck removed).2.count a
      = deck.count a + removed.count a
  | 0, deck, removed, a => rfl
  | k + 1, deck, removed, a => by
    rw [removeTop_succ]
    cases h : deck.getLast? with
    | none => exact removeTop_conserve k deck removed a
    | some c =>
      dsimp only
      rw [removeTop_conserve k deck.dropLast (removed ++ [c]) a]
      conv_rhs => rw [← dropLast_append_getLast?_eq deck c h]
      simp only [List.count_append]
      omega

theorem removeTop_lengths :
    ∀ (k : Nat) (deck removed : List Card), k ≤ deck.length →
    (removeTop k deck removed).1.length = deck.length - k ∧
    (removeTop k deck removed).2.length = removed.length + k
  | 0, deck, removed, _ => by simp [removeTop]
  | k + 1, deck, removed, hk => by
    have hne : deck ≠ [] := by
      intro h
      rw [h] at hk
      simp at hk
    obtain ⟨c, hc⟩ := getLast?_some_of_ne_nil deck hne
    rw [removeTop_succ, hc]
    dsimp only
    have hlen : deck.dropLast.length = deck.length - 1 := List.length_dropLast deck
    have ih := removeTop_lengths k deck.dropLast (removed ++ [c]) (by omega)
    constructor
    · rw [ih.1]; omega
    · rw [ih.2]; simp; omega

/-- Cards held by a list of participants (hands and discard piles). -/
def playersCards (ps : List LPlayer) : List Card :=
  ps.flatMap (fun p => p.hand ++ p.discardPile)

theorem dealLoop_cons (p : LPlayer) (ps : List LPlayer) (deck : List Card) :
    dealLoop (p :: ps) deck =
      match deck.getLast? with
      | some c => ({ p with hand := p.hand ++ [c] } :: (dealLoop ps deck.dropLast).1,
          (dealLoop ps deck.dropLast).2)
      | none => (p :: (dealLoop ps deck).1, (dealLoop ps deck).2) := rfl

theorem dealLoop_conserve :
    ∀ (ps : List LPlayer) (deck : List Card) (a : Card),
    (playersCards (dealLoop ps deck).1).count a + (dealLoop ps deck).2.count a
      = (playersCards ps).count a + deck.count a
  | [], deck, a => rfl
  | p :: ps, deck, a => by
    rw [dealLoop_cons]
    cases h : deck.getLast? with
    | none =>
      dsimp only
      have ih := dealLoop_conserve ps deck a
      simp only [playersCards, List.flatMap_cons, List.count_append] at ih ⊢
      omega
    | some c =>
      dsimp only
      have ih := dealLoop_conserve ps deck.dropLast a
      conv_rhs => rw [← dropLast_append_getLast?_eq deck c h]
      simp only [playersCards, List.flatMap_cons, List.count_append] at ih ⊢
      omega

theorem dealLoop_players_length :
    ∀ (ps : List LPlayer) (deck : List Card),
    (dealLoop ps deck).1.length = ps.length
  | [], _ => rfl
  | p :: ps, deck => by
    rw [dealLoop_cons]
    cases deck.getLast? with
    | none => simpa using dealLoop_players_length ps deck
    | some c => simpa using dealLoop_players_length ps deck.dropLast

theorem dealLoop_deck_length :
    ∀ (ps : List LPlayer) (deck : List Card), ps.length ≤ deck.length →
    (dealLoop ps deck).2.length = deck.length - ps.length
  | [], deck, _ => by simp [dealLoop]
  | p :: ps, deck, hlen => by
    have hne : deck ≠ [] := by
      intro h
      rw [h] at hlen
      simp at hlen
    obtain ⟨c, hc⟩ := getLast?_some_of_ne_nil deck hne
    rw [dealLoop_cons, hc]
    dsimp only
    have hdl : deck.dropLast.length = deck.length - 1 := List.length_dropLast deck
    have ih := dealLoop_deck_length ps deck.dropLast (by simp at hlen ⊢; omega)
    rw [ih]
    simp at hlen ⊢
    omega

theorem dealLoop_mem_shape :
    ∀ (ps : List LPlayer) (deck : List Card), ps.length ≤ deck.length →
    ∀ q ∈ (dealLoop ps deck).1,
    ∃ p, p ∈ ps ∧ ∃ c, q = { p with hand := p.hand ++ [c] }
  | [], _, _, q, hq => by simp [dealLoop] at hq
  | p :: ps, deck, hlen, q, hq => by
    have hne : deck ≠ [] := by
      intro h
      rw [h] at hlen
      simp at hlen
    obtain ⟨c, hc⟩ := getLast?_some_of_ne_nil deck hne
    rw [dealLoop_cons, hc] at hq
    dsimp only at hq
    have hdl : deck.dropLast.length = deck.length - 1 := List.length_dropLast deck
    rcases List.mem_cons.mp hq with h | h
    · exact ⟨p, List.mem_cons_self p ps, c, h⟩
    · obtain ⟨p', hp', c', hc'⟩ :=
        dealLoop_mem_shape ps deck.dropLast (by simp at hlen ⊢; omega) q h
      exact ⟨p', List.mem_cons_of_mem p hp', c', hc'⟩

theorem playersCards_reset (ps : List LPlayer) :
    playersCards (ps.map resetPlayer) = [] := by
  induction ps with
  | nil => rfl
  | cons p ps ih => simp [playersCards, resetPlayer, List.flatMap_cons] at ih ⊢

/-- What claim C7 asserts about `startRound`, for a game `g` and a shuffle
randomness stream `rand`. -/
def RoundSetupSpec (g : LoveLetterGame) (rand : Nat → Nat) : Prop :=
  let g' := g.startRound rand
  (initDeck rand).length = 16 ∧
  List.Perm ((initDeck rand).map Card.value)
    [1, 1, 1, 1, 1, 2, 2, 3, 3, 4, 4, 5, 5, 6, 7, 8] ∧
  List.Perm (llAllCards g') baseDeck ∧
  g'.removedCards.length = (if g.players.length = 2 then 4 else 1) ∧
  g'.players.length = g.players.length ∧
  (∀ q ∈ g'.players, q.hand.length = 1 ∧ q.discardPile = [] ∧
    q.eliminated = false ∧ q.protectedFlag = false) ∧
  g'.deck.length = 16 - g'.removedCards.length - g.players.length ∧
  g'.phase = LPhase.PLAYING ∧ g'.currentPlayerIndex = 0

/-- C7 — Love Letter round setup: `startRound` builds a 16-card deck with
rank counts 5,2,2,2,2,1,1,1 for ranks 1–8, shuffles it, removes exactly 1
card (plus 3 more iff there are 2 participants), deals exactly 1 card to
each participant, resets elimination/protection flags and discard piles,
and enters PLAYING with participant 0 as current actor; all 16 cards stay
accounted for across deck, removed set and hands. -/
theorem claim_C7_round_setup (g : LoveLetterGame) (rand : Nat → Nat)
    (hcap : g.players.length ≤ 4) : RoundSetupSpec g rand := by
  set players0 := g.players.map resetPlayer with hplayers0
  set deck0 := initDeck rand with hdeck0
  set k := (if players0.length = 2 then 4 else 1) with hk
  set dr := removeTop k deck0 [] with hdr
  set pd := dealLoop players0 dr.1 with hpd
  have hg' : g.startRound rand =
      { g with
          players := pd.1
          deck := pd.2
          removedCards := dr.2
          currentPlayerIndex := 0
          phase := .PLAYING } := rfl
  have hn : players0.length = g.players.length := by
    simp [hplayers0]
  have hk4 : k ≤ 4 ∧ 1 ≤ k := by
    rw [hk]
    split <;> omega
  have hd16 : deck0.length = 16 := initDeck_length rand
  have hrt := removeTop_lengths k deck0 [] (by omega)
  rw [← hdr] at hrt
  have hfit : players0.length ≤ dr.1.length := by
    rw [hrt.1]
    omega
  have hdeal1 := dealLoop_players_length players0 dr.1
  have hdeal2 := dealLoop_deck_length players0 dr.1 hfit
  rw [← hpd] at hdeal1 hdeal2
  have hpc0 : playersCards players0 = [] := playersCards_reset g.players
  refine ⟨hd16, ?_, ?_, ?_, ?_, ?_, ?_, ?_, rfl⟩
  · have h := (initDeck_perm rand).map Card.value
    exact h.trans (by decide)
  · refine List.perm_iff_count.mpr (fun a => ?_)
    have h1 := dealLoop_conserve players0 dr.1 a
    have h2 := removeTop_conserve k deck0 [] a
    rw [← hpd] at h1
    rw [← hdr] at h2
    have h3 : (playersCards players0).count a = 0 := by rw [hpc0]; rfl
    have h4 : deck0.count a = baseDeck.count a := (initDeck_perm rand).count_eq a
    have h5 : (llAllCards (g.startRound rand)).count a
        = pd.2.count a + dr.2.count a + (playersCards pd.1).count a := by
      rw [hg']
      simp [llAllCards, playersCards, List.count_append]
      omega
    rw [h5]
    simp only [List.count_nil] at h2
    omega
  · rw [hg']
    show dr.2.length = _
    rw [hrt.2, hk, hn]
    simp
  · rw [hg']
    show pd.1.length = _
    rw [hdeal1, hn]
  · rw [hg']
    intro q hq
    obtain ⟨p, hp, c, rfl⟩ := dealLoop_mem_shape players0 dr.1 hfit q (by exact hq)
    obtain ⟨p', _, rfl⟩ := List.mem_map.mp hp
    exact ⟨rfl, rfl, rfl, rfl⟩
  · rw [hg']
    show pd.2.length = 16 - dr.2.length - g.players.length
    rw [hdeal2, hrt.1, hrt.2, hn, hd16]
    simp only [List.length_nil]
    omega
  · rw [hg']

/-- Concrete two-participant game for the C7 witness. -/
def gC7 : LoveLetterGame :=
  { roomId := "w", players :=
      [{ id := "p1", name := "A", hand := [], discardPile := [],
         eliminated := false, protectedFlag := false, tokens := 0 },
       { id := "p2", name := "B", hand := [], discardPile := [],
         eliminated := false, protectedFlag := false, tokens := 0 }],
    deck := [], removedCards := [], currentPlayerIndex := 0, phase := .WAITING }

/-- Witness instantiating C7 on a concrete two-participant game. -/
theorem claim_C7_round_setup_witness :
    gC7.players.length ≤ 4 ∧ RoundSetupSpec gC7 (fun _ => 0) :=
  ⟨by decide, claim_C7_round_setup gC7 (fun _ => 0) (by decide)⟩

/-! ## Lemmas about the round-winner fold -/

/-- The running first-encountered maximum described by the fold of
`determineRoundWinner`, seeded with an already-seen participant. -/
def pickWinner (p : LPlayer) : List LPlayer → LPlayer
  | [] => p
  | q :: qs => if handValue p < handValue q then pickWinner q qs else pickWinner p qs

theorem foldl_winner_some :
    ∀ (l : List LPlayer) (p : LPlayer),
    l.foldl
      (fun (acc : Option LPlayer × Int) q =>
        if (handValue q : Int) > acc.2 then (some q, (handValue q : Int)) else acc)
      (some p, (handValue p : Int))
    = (some (pickWinner p l), (handValue (pickWinner p l) : Int))
  | [], _ => rfl
  | q :: qs, p => by
    rw [List.foldl_cons]
    dsimp only
    by_cases h : handValue p < handValue q
    · rw [if_pos (by exact_mod_cast h)]
      rw [foldl_winner_some qs q]
      simp [pickWinner, h]
    · rw [if_neg (by exact_mod_cast h)]
      rw [foldl_winner_some qs p]
      simp [pickWinner, h]

theorem foldl_winner_start (a : LPlayer) (l : List LPlayer) :
    (a :: l).foldl
      (fun (acc : Option LPlayer × Int) q =>
        if (handValue q : Int) > acc.2 then (some q, (handValue q : Int)) else acc)
      (none, -1)
    = (some (pickWinner a l), (handValue (pickWinner a l) : Int)) := by
  rw [List.foldl_cons]
  rw [if_pos (by omega)]
  exact foldl_winner_some l a

theorem pickWinner_ge : ∀ (l : List LPlayer) (p : LPlayer),
    handValue p ≤ handValue (pickWinner p l)
  | [], _ => le_refl _
  | q :: qs, p => by
    by_cases h : handValue p < handValue q
    · have h1 : handValue p ≤ handValue (pickWinner q qs) :=
        le_trans (le_of_lt h) (pickWinner_ge qs q)
      simpa [pickWinner, h] using h1
    · simpa [pickWinner, h] using pickWinner_ge qs p

/-- Default participant for position lookups. -/
def dummyPlayer : LPlayer :=
  { id := "", name := "", hand := [], discardPile := [], eliminated := false,
    protectedFlag := false, tokens := 0 }

theorem getD_default_irrel (l : List α) (i : Nat) (h : i < l.length) (d d' : α) :
    l.getD i d = l.getD i d' := by
  rw [List.getD_eq_getElem l d h, List.getD_eq_getElem l d' h]

theorem pickWinner_spec : ∀ (l : List LPlayer) (p : LPlayer),
    (pickWinner p l = p ∧ ∀ x ∈ l, handValue x ≤ handValue p)
    ∨ (∃ i, i < l.length ∧ pickWinner p l = l.getD i dummyPlayer ∧
        handValue p < handValue (l.getD i dummyPlayer) ∧
        (∀ m, m < i → handValue (l.getD m dummyPlayer)
          < handValue (l.getD i dummyPlayer)) ∧
        (∀ m, i < m → m < l.length → handValue (l.getD m dummyPlayer)
          ≤ handValue (l.getD i dummyPlayer)))
  | [], p => Or.inl ⟨rfl, by simp⟩
  | q :: qs, p => by
    by_cases h : handValue p < handValue q
    · have hpq : pickWinner p (q :: qs) = pickWinner q qs := by
        simp [pickWinner, h]
      rcases pickWinner_spec qs q with ⟨heq, hall⟩ | ⟨i, hi, heq, hlt, hbefore, hafter⟩
      · refine Or.inr ⟨0, by simp, ?_, ?_, ?_, ?_⟩
        · rw [hpq, heq]; rfl
        · simpa using h
        · intro m hm; omega
        · intro m hm hmlen
          obtain ⟨m', rfl⟩ : ∃ m', m = m' + 1 := ⟨m - 1, by omega⟩
          have hm' : m' < qs.length := by simpa using hmlen
          show handValue (qs.getD m' dummyPlayer) ≤ handValue q
          rw [List.getD_eq_getElem qs dummyPlayer hm']
          exact hall _ (List.getElem_mem hm')
      · refine Or.inr ⟨i + 1, by simpa using hi, ?_, ?_, ?_, ?_⟩
        · rw [hpq, heq]; rfl
        · exact lt_trans h (by simpa using hlt)
        · intro m hm
          match m with
          | 0 =>
            show handValue q < handValue ((q :: qs).getD (i + 1) dummyPlayer)
            simpa using hlt
          | m' + 1 =>
            have : m' < i := by omega
            simpa using hbefore m' this
        · intro m hm hmlen
          obtain ⟨m', rfl⟩ : ∃ m', m = m' + 1 := ⟨m - 1, by omega⟩
          have h1 : i < m' := by omega
          have h2 : m' < qs.length := by simpa using hmlen
          simpa using hafter m' h1 h2
    · have hpq : pickWinner p (q :: qs) = pickWinner p qs := by
        simp [pickWinner, h]
      rcases pickWinner_spec qs p with ⟨heq, hall⟩ | ⟨i, hi, heq, hlt, hbefore, hafter⟩
      · refine Or.inl ⟨by rw [hpq, heq], ?_⟩
        intro x hx
        rcases List.mem_cons.mp hx with rfl | hx'
        · omega
        · exact hall x hx'
      · refine Or.inr ⟨i + 1, by simpa using hi, ?_, ?_, ?_, ?_⟩
        · rw [hpq, heq]; rfl
        · simpa using hlt
        · intro m hm
          match m with
          | 0 =>
            show handValue q < handValue ((q :: qs).getD (i + 1) dummyPlayer)
            have : handValue q ≤ handValue p := by omega
            have h2 : handValue p < handValue (qs.getD i dummyPlayer) := hlt
            simpa using lt_of_le_of_lt this h2
          | m' + 1 =>
            have : m' < i := by omega
            simpa using hbefore m' this
        · intro m hm hmlen
          obtain ⟨m', rfl⟩ : ∃ m', m = m' + 1 := ⟨m - 1, by omega⟩
          have h1 : i < m' := by omega
          have h2 : m' < qs.length := by simpa using hmlen
          simpa using hafter m' h1 h2

/-- What claim C6 asserts: the round-over test, and the winner being the
sole survivor or the first-encountered highest hand value. -/
def RoundWinnerSpec (g : LoveLetterGame) : Prop :=
  (g.isRoundOver = true ↔ (g.getActivePlayers.length ≤ 1 ∨ g.deck = [])) ∧
  (∀ p, g.getActivePlayers = [p] → g.determineRoundWinner = some p) ∧
  (2 ≤ g.getActivePlayers.length →
    ∃ i, i < g.getActivePlayers.length ∧
      g.determineRoundWinner = some (g.getActivePlayers.getD i dummyPlayer) ∧
      (∀ m, m < i → handValue (g.getActivePlayers.getD m dummyPlayer)
        < handValue (g.getActivePlayers.getD i dummyPlayer)) ∧
      (∀ m, i < m → m < g.getActivePlayers.length →
        handValue (g.getActivePlayers.getD m dummyPlayer)
          ≤ handValue (g.getActivePlayers.getD i dummyPlayer)))

/-- C6 — Love Letter round end and winner: `isRoundOver` is true exactly
when at most one active participant remains or the deck is empty; when one
participant remains they win, and with two or more the winner is the first
active participant in iteration order whose hand value beats all earlier
ones strictly and all later ones weakly. -/
theorem claim_C6_round_end (g : LoveLetterGame) : RoundWinnerSpec g := by
  have hw : g.determineRoundWinner =
      (if g.getActivePlayers.length = 1 then g.getActivePlayers.get? 0
       else (g.getActivePlayers.foldl
          (fun (acc : Option LPlayer × Int) p =>
            if (handValue p : Int) > acc.2 then (some p, (handValue p : Int)) else acc)
          (none, -1)).1) := rfl
  refine ⟨?_, ?_, ?_⟩
  · simp [LoveLetterGame.isRoundOver, List.length_eq_zero]
  · intro p hp
    rw [hw, hp]
    rfl
  · intro h2
    cases hact : g.getActivePlayers with
    | nil => rw [hact] at h2; simp at h2
    | cons a rest =>
      rw [hw, hact]
      rw [if_neg (by rw [hact] at h2; intro hh; rw [hh] at h2; omega)]
      rw [foldl_winner_start a rest]
      rcases pickWinner_spec rest a with ⟨heq, hall⟩ | ⟨i, hi, heq, hlt, hbefore, hafter⟩
      · refine ⟨0, by simp, by rw [heq]; rfl, ?_, ?_⟩
        · intro m hm; omega
        · intro m hm hmlen
          obtain ⟨m', rfl⟩ : ∃ m', m = m' + 1 := ⟨m - 1, by omega⟩
          have hm' : m' < rest.length := by simpa using hmlen
          show handValue (rest.getD m' dummyPlayer) ≤ handValue a
          rw [List.getD_eq_getElem rest dummyPlayer hm']
          exact hall _ (List.getElem_mem hm')
      · refine ⟨i + 1, by simpa using hi, by rw [heq]; rfl, ?_, ?_⟩
        · intro m hm
          match m with
          | 0 =>
            show handValue a < handValue ((a :: rest).getD (i + 1) dummyPlayer)
            simpa using hlt
          | m' + 1 =>
            have : m' < i := by omega
            simpa using hbefore m' this
        · intro m hm hmlen
          obtain ⟨m', rfl⟩ : ∃ m', m = m' + 1 := ⟨m - 1, by omega⟩
          have ha : i < m' := by omega
          have hb : m' < rest.length := by simpa using hmlen
          simpa using hafter m' ha hb

/-- Concrete game for the C6 witness: three active participants with hand
values 2, 5, 5 — the first of the two highest (index 1) wins. -/
def gC6 : LoveLetterGame :=
  { roomId := "w", players :=
      [{ id := "p1", name := "A", hand := [⟨5, .PRIEST, 2⟩], discardPile := [],
         eliminated := false, protectedFlag := false, tokens := 0 },
       { id := "p2", name := "B", hand := [⟨11, .PRINCE, 5⟩], discardPile := [],
         eliminated := false, protectedFlag := false, tokens := 0 },
       { id := "p3", name := "C", hand := [⟨12, .PRINCE, 5⟩], discardPile := [],
         eliminated := false, protectedFlag := false, tokens := 0 }],
    deck := [], removedCards := [], currentPlayerIndex := 0, phase := .PLAYING }

/-- Witness instantiating C6 on a concrete three-participant deadlock. -/
theorem claim_C6_round_end_witness :
    2 ≤ gC6.getActivePlayers.length ∧
    gC6.determineRoundWinner = gC6.getActivePlayers.get? 1 ∧
    RoundWinnerSpec gC6 :=
  ⟨by decide, by decide, claim_C6_round_end gC6⟩

/-! ## Claim C2: Memory Battle match check -/

/-- What claim C2 asserts about one `checkMatch` call on a state whose two
flipped indices `i ≠ j` hold cards `c1`, `c2` and whose current actor is
`cp`. -/
def CheckMatchSpec (g : MemoryBattleGame) (i j : Nat) (c1 c2 : MCard)
    (cp : MPlayer) : Prop :=
  (c1.symbolId = c2.symbolId →
    ((g.checkMatch.2.map MatchResult.isMatch) = some true ∧
     g.checkMatch.1.cards.get? i
       = some { c1 with isMatched := true, matchedBy := some g.currentPlayerIndex } ∧
     g.checkMatch.1.cards.get? j
       = some { c2 with isMatched := true, matchedBy := some g.currentPlayerIndex } ∧
     (∀ k, k ≠ i → k ≠ j → g.checkMatch.1.cards.get? k = g.cards.get? k) ∧
     g.checkMatch.1.players.get? g.currentPlayerIndex
       = some { cp with score := cp.score + 1 } ∧
     (∀ k, k ≠ g.currentPlayerIndex →
       g.checkMatch.1.players.get? k = g.players.get? k) ∧
     g.checkMatch.1.matchedPairs = g.matchedPairs + 1 ∧
     g.checkMatch.1.flippedIndices = [] ∧
     g.checkMatch.1.currentPlayerIndex = g.currentPlayerIndex ∧
     g.checkMatch.1.phase
       = (if g.matchedPairs + 1 = g.totalPairs then MPhase.FINISHED else g.phase)) ) ∧
  (c1.symbolId ≠ c2.symbolId →
    ((g.checkMatch.2.map MatchResult.isMatch) = some false ∧
     g.checkMatch.1.cards.get? i = some { c1 with isFlipped := false } ∧
     g.checkMatch.1.cards.get? j = some { c2 with isFlipped := false } ∧
     (∀ k, k ≠ i → k ≠ j → g.checkMatch.1.cards.get? k = g.cards.get? k) ∧
     g.checkMatch.1.players = g.players ∧
     g.checkMatch.1.matchedPairs = g.matchedPairs ∧
     g.checkMatch.1.flippedIndices = [] ∧
     g.checkMatch.1.currentPlayerIndex = 1 - g.currentPlayerIndex ∧
     g.checkMatch.1.phase = g.phase))

/-- C2 — Memory Battle `checkMatch`: with exactly two flipped cards, equal
pairing symbols mark both cards matched for the current actor, bump that
actor's score and the pair counter, clear the flips, keep the turn, and
finish the game exactly when all pairs are matched; unequal symbols flip
both cards back, clear the flips, change nothing else, and pass the turn
to the other actor. -/
theorem claim_C2_check_match (g : MemoryBattleGame) (i j : Nat) (c1 c2 : MCard)
    (cp : MPlayer) (hij : i ≠ j) (hf : g.flippedIndices = [i, j])
    (h1 : g.cards.get? i = some c1) (h2 : g.cards.get? j = some c2)
    (hp : g.players.get? g.currentPlayerIndex = some cp)
    (hcur2 : g.currentPlayerIndex < 2) :
    CheckMatchSpec g i j c1 c2 cp := by
  have hi : i < g.cards.length := (List.get?_eq_some.mp h1).1
  have hj : j < g.cards.length := (List.get?_eq_some.mp h2).1
  have hcp : g.currentPlayerIndex < g.players.length := (List.get?_eq_some.mp hp).1
  constructor
  · intro heq
    have hcm : g.checkMatch =
        ({ g with
            cards := (g.cards.set i
              { c1 with isMatched := true, matchedBy := some g.currentPlayerIndex }).set j
              { c2 with isMatched := true, matchedBy := some g.currentPlayerIndex }
            matchedPairs := g.matchedPairs + 1
            players := g.players.set g.currentPlayerIndex
              { cp with score := cp.score + 1 }
            flippedIndices := []
            phase := if g.matchedPairs + 1 = g.totalPairs then MPhase.FINISHED
              else g.phase },
          some { isMatch := true, cardIndices := (i, j),
                 playerId := ((g.players.set g.currentPlayerIndex
                   { cp with score := cp.score + 1 }).get?
                     g.currentPlayerIndex).map (fun p => p.id),
                 playerScore := ((g.players.set g.currentPlayerIndex
                   { cp with score := cp.score + 1 }).get?
                     g.currentPlayerIndex).map (fun p => p.score),
                 matchedPairs := some (g.matchedPairs + 1),
                 totalPairs := some g.totalPairs,
                 isGameOver := some
                   ((if g.matchedPairs + 1 = g.totalPairs then MPhase.FINISHED
                     else g.phase) = MPhase.FINISHED) }) := by
      unfold MemoryBattleGame.checkMatch
      rw [hf]
      dsimp only
      rw [h1, h2]
      dsimp only
      rw [if_pos heq, hp]
    rw [hcm]
    refine ⟨rfl, ?_, ?_, ?_, ?_, ?_, rfl, rfl, rfl, rfl⟩
    · show ((g.cards.set i _).set j _).get? i = _
      rw [List.get?_eq_getElem?, List.getElem?_set_ne (Ne.symm hij),
        List.getElem?_set_self]
      simp [hi]
    · show ((g.cards.set i _).set j _).get? j = _
      rw [List.get?_eq_getElem?, List.getElem?_set_self]
      simp [List.length_set, hj]
    · intro k hki hkj
      show ((g.cards.set i _).set j _).get? k = _
      rw [List.get?_eq_getElem?, List.getElem?_set_ne (Ne.symm hkj),
        List.getElem?_set_ne (Ne.symm hki), List.get?_eq_getElem?]
    · show (g.players.set _ _).get? _ = _
      rw [List.get?_eq_getElem?, List.getElem?_set_self]
      simp [hcp]
    · intro k hk
      show (g.players.set _ _).get? k = _
      rw [List.get?_eq_getElem?, List.getElem?_set_ne (Ne.symm hk),
        List.get?_eq_getElem?]
  · intro hne
    have hcm : g.checkMatch =
        ({ g with
            cards := (g.cards.set i { c1 with isFlipped := false }).set j
              { c2 with isFlipped := false }
            flippedIndices := []
            currentPlayerIndex := (g.currentPlayerIndex + 1) % 2 },
          some { isMatch := false, cardIndices := (i, j) }) := by
      unfold MemoryBattleGame.checkMatch
      rw [hf]
      dsimp only
      rw [h1, h2]
      dsimp only
      rw [if_neg hne]
    rw [hcm]
    refine ⟨rfl, ?_, ?_, ?_, rfl, rfl, rfl, ?_, rfl⟩
    · show ((g.cards.set i _).set j _).get? i = _
      rw [List.get?_eq_getElem?, List.getElem?_set_ne (Ne.symm hij),
        List.getElem?_set_self]
      simp [hi]
    · show ((g.cards.set i _).set j _).get? j = _
      rw [List.get?_eq_getElem?, List.getElem?_set_self]
      simp [List.length_set, hj]
    · intro k hki hkj
      show ((g.cards.set i _).set j _).get? k = _
      rw [List.get?_eq_getElem?, List.getElem?_set_ne (Ne.symm hkj),
        List.getElem?_set_ne (Ne.symm hki), List.get?_eq_getElem?]
    · show (g.currentPlayerIndex + 1) % 2 = 1 - g.currentPlayerIndex
      omega

/-- First flipped card of the C2 witness state. -/
def cC2a : MCard :=
  { id := 0, symbolId := 0, symbol := "🦊", isFlipped := true,
    isMatched := false, matchedBy := none }

/-- Second flipped card of the C2 witness state. -/
def cC2b : MCard :=
  { id := 1, symbolId := 0, symbol := "🦊", isFlipped := true,
    isMatched := false, matchedBy := none }

/-- Current actor of the C2 witness state. -/
def pC2 : MPlayer := { id := "a", name := "A", avatar := "👤", score := 0, isReady := false }

/-- Concrete state for the C2 witness: cards 0 and 1 are flipped and share
a pairing symbol. -/
def gC2 : MemoryBattleGame :=
  { roomId := "m", phase := .PLAYING, gridSize := "4x4",
    cards :=
      [cC2a, cC2b,
       { id := 2, symbolId := 1, symbol := "🐺", isFlipped := false,
         isMatched := false, matchedBy := none },
       { id := 3, symbolId := 1, symbol := "🐺", isFlipped := false,
         isMatched := false, matchedBy := none }],
    players :=
      [pC2, { id := "b", name := "B", avatar := "👥", score := 0, isReady := false }],
    currentPlayerIndex := 0, flippedIndices := [0, 1], matchedPairs := 0,
    totalPairs := 2, turnTimeLeft := 30 }

/-- Witness instantiating C2 on a concrete two-flip state. -/
theorem claim_C2_check_match_witness : CheckMatchSpec gC2 0 1 cC2a cC2b pC2 :=
  claim_C2_check_match gC2 0 1 cC2a cC2b pC2 (by decide) rfl rfl rfl rfl (by decide)

/-! ## Claim C3: validation errors leave the state untouched -/

theorem executeCard_fail_eq (g : LoveLetterGame) (player : LPlayer) (card : Card)
    (target : Option LPlayer) (guessType : Option CardType)
    (h : (g.executeCard player card target guessType).2.success = false) :
    (g.executeCard player card target guessType).1 = g := by
  rcases card with ⟨cid, ctype, cval⟩
  unfold LoveLetterGame.executeCard at h ⊢
  cases ctype <;> cases target <;> cases guessType <;> dsimp only at h ⊢ <;>
    (try split_ifs at h ⊢) <;> (first | rfl | exact absurd h (by simp))

theorem flipCard_fail_eq (g : MemoryBattleGame) (pid : String) (ci : Int)
    (h : (g.flipCard pid ci).2.success = false) :
    (g.flipCard pid ci).1 = g := by
  cases hcp : g.getCurrentPlayer with
  | none =>
    unfold MemoryBattleGame.flipCard at h ⊢
    rw [hcp] at h ⊢
  | some cp =>
    unfold MemoryBattleGame.flipCard at h ⊢
    rw [hcp] at h ⊢
    dsimp only at h ⊢
    split_ifs at h ⊢ <;> rfl

/-- C3 — validation-error atomicity: whenever the Love Letter `playCard`
handler reports an error (wrong turn, bad card index, forced Countess,
or a structured `executeCard` failure) or the Memory Battle `flipCard`
returns a failure, the game state is exactly what it was before the call. -/
theorem claim_C3_validation_atomicity :
    (∀ (g : LoveLetterGame) (pid : String) (ci : Int) (tid : Option String)
      (gt : Option CardType), (playCard g pid ci tid gt).2.ok = false →
      (playCard g pid ci tid gt).1 = g) ∧
    (∀ (g : MemoryBattleGame) (pid : String) (ci : Int),
      (g.flipCard pid ci).2.success = false → (g.flipCard pid ci).1 = g) := by
  constructor
  · intro g pid ci tid gt h
    cases hpl : g.getPlayer pid with
    | none =>
      unfold playCard at h ⊢
      rw [hpl] at h ⊢
    | some player =>
      cases hcur : g.getCurrentPlayer with
      | none =>
        unfold playCard at h ⊢
        rw [hpl, hcur] at h ⊢
      | some current =>
        unfold playCard at h ⊢
        rw [hpl, hcur] at h ⊢
        dsimp only at h ⊢
        split_ifs at h ⊢ <;>
          first
          | rfl
          | exact executeCard_fail_eq _ _ _ _ _ (by assumption)
  · exact fun g pid ci => flipCard_fail_eq g pid ci

/-- Love Letter state for the C3 witness: participant p2 attempts a play
out of turn. -/
def gC3L : LoveLetterGame :=
  { roomId := "w", players :=
      [{ id := "p1", name := "A", hand := [⟨0, .GUARD, 1⟩], discardPile := [],
         eliminated := false, protectedFlag := false, tokens := 0 },
       { id := "p2", name := "B", hand := [⟨5, .PRIEST, 2⟩], discardPile := [],
         eliminated := false, protectedFlag := false, tokens := 0 }],
    deck := [⟨13, .KING, 6⟩], removedCards := [], currentPlayerIndex := 0,
    phase := .PLAYING }

/-- Memory Battle state for the C3 witness: participant b flips out of
turn. -/
def gC3M : MemoryBattleGame :=
  { roomId := "m", phase := .PLAYING, gridSize := "4x4",
    cards :=
      [{ id := 0, symbolId := 0, symbol := "🦊", isFlipped := false,
         isMatched := false, matchedBy := none },
       { id := 1, symbolId := 0, symbol := "🦊", isFlipped := false,
         isMatched := false, matchedBy := none }],
    players :=
      [{ id := "a", name := "A", avatar := "👤", score := 0, isReady := false },
       { id := "b", name := "B", avatar := "👥", score := 0, isReady := false }],
    currentPlayerIndex := 0, flippedIndices := [], matchedPairs := 0,
    totalPairs := 1, turnTimeLeft := 30 }

/-- Witness instantiating C3 on concrete wrong-turn rejections in both
engines. -/
theorem claim_C3_validation_atomicity_witness :
    ((playCard gC3L "p2" 0 none none).2.ok = false ∧
      (playCard gC3L "p2" 0 none none).1 = gC3L) ∧
    ((gC3M.flipCard "b" 0).2.success = false ∧
      (gC3M.flipCard "b" 0).1 = gC3M) :=
  ⟨⟨by decide, claim_C3_validation_atomicity.1 gC3L "p2" 0 none none (by decide)⟩,
   ⟨by decide, claim_C3_validation_atomicity.2 gC3M "b" 0 (by decide)⟩⟩

/-! ## Claims C4 and C5: the public snapshot and hidden symbols -/

/-- Default board card for position lookups. -/
def mcardDummy : MCard :=
  { id := 0, symbolId := 0, symbol := "", isFlipped := false,
    isMatched := false, matchedBy := none }

/-- Default snapshot card for position lookups. -/
def pubCardDummy : PubCard :=
  { id := 0, isFlipped := false, isMatched := false, matchedBy := none,
    symbol := "", symbolId := 0 }

/-- C5 — the public snapshot lists every board card and always carries its
pairing `symbol` and `symbolId`, face-up or face-down, matched or not. -/
theorem claim_C5_public_state_symbols (g : MemoryBattleGame) :
    g.getPublicState.cards.length = g.cards.length ∧
    ∀ i, i < g.cards.length →
      (g.getPublicState.cards.getD i pubCardDummy).symbol
        = (g.cards.getD i mcardDummy).symbol ∧
      (g.getPublicState.cards.getD i pubCardDummy).symbolId
        = (g.cards.getD i mcardDummy).symbolId := by
  refine ⟨by simp [MemoryBattleGame.getPublicState], ?_⟩
  intro i hi
  have hi' : i < g.getPublicState.cards.length := by
    simpa [MemoryBattleGame.getPublicState] using hi
  rw [List.getD_eq_getElem g.getPublicState.cards pubCardDummy hi',
    List.getD_eq_getElem g.cards mcardDummy hi]
  simp only [MemoryBattleGame.getPublicState, List.getElem_map]
  exact ⟨trivial, trivial⟩

/-- Concrete state for the C5 witness: a face-down, unmatched card. -/
def gC5 : MemoryBattleGame :=
  { roomId := "m", phase := .PLAYING, gridSize := "4x4",
    cards :=
      [{ id := 0, symbolId := 7, symbol := "⭐", isFlipped := false,
         isMatched := false, matchedBy := none }],
    players := [], currentPlayerIndex := 0, flippedIndices := [],
    matchedPairs := 0, totalPairs := 1, turnTimeLeft := 30 }

/-- Witness instantiating C5 on a face-down unmatched card. -/
theorem claim_C5_public_state_symbols_witness :
    (gC5.cards.getD 0 mcardDummy).isFlipped = false ∧
    (gC5.cards.getD 0 mcardDummy).isMatched = false ∧
    (gC5.getPublicState.cards.getD 0 pubCardDummy).symbol
      = (gC5.cards.getD 0 mcardDummy).symbol ∧
    (gC5.getPublicState.cards.getD 0 pubCardDummy).symbolId
      = (gC5.cards.getD 0 mcardDummy).symbolId :=
  ⟨by decide, by decide,
   ((claim_C5_public_state_symbols gC5).2 0 (by decide)).1,
   ((claim_C5_public_state_symbols gC5).2 0 (by decide)).2⟩

/-- Two Memory Battle states that agree everywhere except possibly in the
`symbol`/`symbolId` of cards that are face-down and unmatched (in both). -/
def DifferOnlyHiddenSymbols (g1 g2 : MemoryBattleGame) : Prop :=
  g1.roomId = g2.roomId ∧ g1.phase = g2.phase ∧ g1.gridSize = g2.gridSize ∧
  g1.players = g2.players ∧ g1.currentPlayerIndex = g2.currentPlayerIndex ∧
  g1.flippedIndices = g2.flippedIndices ∧ g1.matchedPairs = g2.matchedPairs ∧
  g1.totalPairs = g2.totalPairs ∧ g1.turnTimeLeft = g2.turnTimeLeft ∧
  g1.cards.length = g2.cards.length ∧
  ∀ i, i < g1.cards.length →
    (g1.cards.getD i mcardDummy).id = (g2.cards.getD i mcardDummy).id ∧
    (g1.cards.getD i mcardDummy).isFlipped = (g2.cards.getD i mcardDummy).isFlipped ∧
    (g1.cards.getD i mcardDummy).isMatched = (g2.cards.getD i mcardDummy).isMatched ∧
    (g1.cards.getD i mcardDummy).matchedBy = (g2.cards.getD i mcardDummy).matchedBy ∧
    ((g1.cards.getD i mcardDummy).isFlipped = false ∧
        (g1.cards.getD i mcardDummy).isMatched = false ∨
      (g1.cards.getD i mcardDummy).symbol = (g2.cards.getD i mcardDummy).symbol ∧
        (g1.cards.getD i mcardDummy).symbolId = (g2.cards.getD i mcardDummy).symbolId)

/-- The Memory Battle states reachable through the engine's operations
from a fresh constructor call (shuffle randomness quantified). -/
inductive MBReachable : MemoryBattleGame → Prop
  | init (roomId : String) : MBReachable (MemoryBattleGame.init roomId)
  | addPlayer (g : MemoryBattleGame) (pid pname : String) :
      MBReachable g → MBReachable (g.addPlayer pid pname).1
  | removePlayer (g : MemoryBattleGame) (pid : String) :
      MBReachable g → MBReachable (g.removePlayer pid)
  | setGridSize (g : MemoryBattleGame) (gs : String) :
      MBReachable g → MBReachable (g.setGridSize gs)
  | startGame (g : MemoryBattleGame) (r1 r2 : Nat → Nat) :
      MBReachable g → MBReachable (g.startGame r1 r2).1
  | flipCard (g : MemoryBattleGame) (pid : String) (ci : Int) :
      MBReachable g → MBReachable (g.flipCard pid ci).1
  | checkMatch (g : MemoryBattleGame) :
      MBReachable g → MBReachable g.checkMatch.1
  | switchTurn (g : MemoryBattleGame) :
      MBReachable g → MBReachable g.switchTurn

/-- Identity randomness: every Fisher–Yates step swaps in place. -/
def randId : Nat → Nat := fun i => i

/-- Randomness that swaps symbol slots 8 and 0 and leaves the rest. -/
def randSwap8 : Nat → Nat := fun i => if i = 8 then 0 else i

/-- First C4 state: fresh 4x4 game, board laid out with symbols 0–7. -/
def gC4a : MemoryBattleGame :=
  (((((MemoryBattleGame.init "r").addPlayer "a" "A").1.addPlayer "b" "B").1).startGame
    randId randId).1

/-- Second C4 state: same game except the first symbol pair is symbol 8. -/
def gC4b : MemoryBattleGame :=
  (((((MemoryBattleGame.init "r").addPlayer "a" "A").1.addPlayer "b" "B").1).startGame
    randSwap8 randId).1

theorem gC4a_reachable : MBReachable gC4a :=
  MBReachable.startGame _ randId randId
    (MBReachable.addPlayer _ "b" "B"
      (MBReachable.addPlayer _ "a" "A" (MBReachable.init "r")))

theorem gC4b_reachable : MBReachable gC4b :=
  MBReachable.startGame _ randSwap8 randId
    (MBReachable.addPlayer _ "b" "B"
      (MBReachable.addPlayer _ "a" "A" (MBReachable.init "r")))

/-- C4 counterexample — two reachable states that differ only in the
pairing symbols of face-down, unmatched cards, yet produce different
public snapshots: `getPublicState` embeds every card's symbol, so it is
not invariant in the hidden card identities. -/
theorem claim_C4_counterexample :
    MBReachable gC4a ∧ MBReachable gC4b ∧
    DifferOnlyHiddenSymbols gC4a gC4b ∧
    gC4a.getPublicState ≠ gC4b.getPublicState :=
  ⟨gC4a_reachable, gC4b_reachable, by unfold DifferOnlyHiddenSymbols; decide, by decide⟩

/-- The snapshot redaction that claim C4 is amended against: blank out the
symbol fields of face-down, unmatched snapshot cards. -/
def redactCard (c : PubCard) : PubCard :=
  if c.isFlipped = false ∧ c.isMatched = false then
    { c with symbol := "", symbolId := 0 }
  else c

/-- `redactHidden` applies `redactCard` to every snapshot card. -/
def redactHidden (s : PubState) : PubState :=
  { s with cards := s.cards.map redactCard }

theorem redactCard_eq (d1 d2 : PubCard) (hid : d1.id = d2.id)
    (hfl : d1.isFlipped = d2.isFlipped) (hmt : d1.isMatched = d2.isMatched)
    (hmb : d1.matchedBy = d2.matchedBy)
    (hrest : (d1.isFlipped = false ∧ d1.isMatched = false) ∨
      (d1.symbol = d2.symbol ∧ d1.symbolId = d2.symbolId)) :
    redactCard d1 = redactCard d2 := by
  cases d1 with
  | mk i1 f1 m1 b1 s1 sid1 =>
    cases d2 with
    | mk i2 f2 m2 b2 s2 sid2 =>
      simp only at hid hfl hmt hmb hrest
      subst hid
      subst hfl
      subst hmt
      subst hmb
      rcases hrest with ⟨hf, hm⟩ | ⟨hs, hsid⟩
      · subst hf
        subst hm
        simp [redactCard]
      · subst hs
        subst hsid
        rfl

/-- C4 amended — the public snapshot is invariant in the symbols of
face-down unmatched cards only after redacting those symbol fields: two
states differing only there yield snapshots that agree once `redactHidden`
blanks the hidden symbols (and, by the C4 counterexample, not before). -/
theorem claim_C4_public_state_hiding_amended (g1 g2 : MemoryBattleGame)
    (h : DifferOnlyHiddenSymbols g1 g2) :
    redactHidden g1.getPublicState = redactHidden g2.getPublicState := by
  obtain ⟨h1, h2, h3, h4, h5, h6, h7, h8, h9, hlen, hcards⟩ := h
  unfold redactHidden MemoryBattleGame.getPublicState
  simp only [PubState.mk.injEq, List.map_map]
  refine ⟨h1, h3, by rw [h4], ?_, h5, h7, h8, h2, h9⟩
  apply List.ext_getElem
  · simp [hlen]
  · intro i hi1 hi2
    have hi : i < g1.cards.length := by simpa using hi1
    have hi' : i < g2.cards.length := by simpa using hi2
    obtain ⟨hid, hfl, hmt, hmb, hrest⟩ := hcards i hi
    rw [List.getD_eq_getElem g1.cards mcardDummy hi,
      List.getD_eq_getElem g2.cards mcardDummy hi'] at hid hfl hmt hmb hrest
    simp only [List.getElem_map, Function.comp]
    exact redactCard_eq _ _ hid hfl hmt hmb hrest

/-- Witness instantiating the amended C4 on the two concrete states of the
counterexample. -/
theorem claim_C4_public_state_hiding_amended_witness :
    DifferOnlyHiddenSymbols gC4a gC4b ∧
    redactHidden gC4a.getPublicState = redactHidden gC4b.getPublicState :=
  ⟨by unfold DifferOnlyHiddenSymbols; decide,
   claim_C4_public_state_hiding_amended gC4a gC4b (by unfold DifferOnlyHiddenSymbols; decide)⟩

/-! ## Claim C9: at most two flipped cards -/

theorem addPlayer_flipped (g : MemoryBattleGame) (pid pname : String) :
    (g.addPlayer pid pname).1.flippedIndices = g.flippedIndices := by
  unfold MemoryBattleGame.addPlayer
  split_ifs <;> rfl

theorem removePlayer_flipped (g : MemoryBattleGame) (pid : String) :
    (g.removePlayer pid).flippedIndices = g.flippedIndices := by
  unfold MemoryBattleGame.removePlayer
  dsimp only
  split_ifs <;> rfl

theorem setGridSize_flipped (g : MemoryBattleGame) (gs : String) :
    (g.setGridSize gs).flippedIndices = g.flippedIndices := by
  unfold MemoryBattleGame.setGridSize
  cases gridConfigs gs <;> rfl

theorem startGame_flipped (g : MemoryBattleGame) (r1 r2 : Nat → Nat)
    (h : g.flippedIndices.length ≤ 2) :
    (g.startGame r1 r2).1.flippedIndices.length ≤ 2 := by
  unfold MemoryBattleGame.startGame
  split_ifs
  · exact h
  · simp

theorem flipCard_flipped (g : MemoryBattleGame) (pid : String) (ci : Int)
    (h : g.flippedIndices.length ≤ 2) :
    (g.flipCard pid ci).1.flippedIndices.length ≤ 2 := by
  cases hcp : g.getCurrentPlayer with
  | none =>
    unfold MemoryBattleGame.flipCard
    rw [hcp]
    exact h
  | some cp =>
    unfold MemoryBattleGame.flipCard
    rw [hcp]
    dsimp only
    split_ifs <;>
      first
      | exact h
      | (simp_all; omega)

theorem checkMatch_flipped (g : MemoryBattleGame)
    (h : g.flippedIndices.length ≤ 2) :
    g.checkMatch.1.flippedIndices.length ≤ 2 := by
  unfold MemoryBattleGame.checkMatch
  cases hf : g.flippedIndices with
  | nil => exact h
  | cons a t =>
    cases t with
    | nil => exact h
    | cons b t2 =>
      cases t2 with
      | nil =>
        dsimp only
        cases g.cards.get? a <;> cases g.cards.get? b <;> dsimp only <;>
          first
          | exact h
          | (split_ifs <;> simp)
      | cons c t3 => exact h

theorem switchTurn_flipped (g : MemoryBattleGame) :
    g.switchTurn.flippedIndices.length ≤ 2 := by
  simp [MemoryBattleGame.switchTurn]

/-- C9 — Memory Battle flip limit: every reachable state has at most two
flipped indices, and any `flipCard` call arriving while two flips are
already pending fails and leaves the state unchanged. -/
theorem claim_C9_flip_limit :
    (∀ g : MemoryBattleGame, MBReachable g → g.flippedIndices.length ≤ 2) ∧
    (∀ (g : MemoryBattleGame) (pid : String) (ci : Int),
      2 ≤ g.flippedIndices.length →
      (g.flipCard pid ci).2.success = false ∧ (g.flipCard pid ci).1 = g) := by
  constructor
  · intro g hreach
    induction hreach with
    | init roomId => simp [MemoryBattleGame.init]
    | addPlayer g pid pname _ ih => rw [addPlayer_flipped]; exact ih
    | removePlayer g pid _ ih => rw [removePlayer_flipped]; exact ih
    | setGridSize g gs _ ih => rw [setGridSize_flipped]; exact ih
    | startGame g r1 r2 _ ih => exact startGame_flipped g r1 r2 ih
    | flipCard g pid ci _ ih => exact flipCard_flipped g pid ci ih
    | checkMatch g _ ih => exact checkMatch_flipped g ih
    | switchTurn g _ _ => exact switchTurn_flipped g
  · intro g pid ci h2
    cases hcp : g.getCurrentPlayer with
    | none =>
      unfold MemoryBattleGame.flipCard
      rw [hcp]
      exact ⟨rfl, rfl⟩
    | some cp =>
      unfold MemoryBattleGame.flipCard
      rw [hcp]
      dsimp only
      split_ifs <;> exact ⟨rfl, rfl⟩

/-- Reachable state for the C9 witness: a fresh game after two legal
flips. -/
def gC9 : MemoryBattleGame :=
  (((((((MemoryBattleGame.init "q").addPlayer "a" "A").1.addPlayer "b" "B").1.startGame
    randId randId).1.flipCard "a" 0).1.flipCard "a" 1).1)

theorem gC9_reachable : MBReachable gC9 :=
  MBReachable.flipCard _ "a" 1
    (MBReachable.flipCard _ "a" 0
      (MBReachable.startGame _ randId randId
        (MBReachable.addPlayer _ "b" "B"
          (MBReachable.addPlayer _ "a" "A" (MBReachable.init "q")))))

/-- Witness instantiating C9 on a reachable two-flip state and a rejected
third flip. -/
theorem claim_C9_flip_limit_witness :
    gC9.flippedIndices.length ≤ 2 ∧
    2 ≤ gC9.flippedIndices.length ∧
    (gC9.flipCard "a" 2).2.success = false ∧
    (gC9.flipCard "a" 2).1 = gC9 :=
  ⟨claim_C9_flip_limit.1 gC9 gC9_reachable, by decide,
   (claim_C9_flip_limit.2 gC9 "a" 2 (by decide)).1,
   (claim_C9_flip_limit.2 gC9 "a" 2 (by decide)).2⟩

/-! ## Claim C8: forced Countess -/

/-- What claim C8 asserts for a current participant holding the Countess
together with the King or Prince, attempting card index `ci` holding
`card`. -/
def CountessForcedSpec (g : LoveLetterGame) (pid : String) (ci : Int)
    (tid : Option String) (gt : Option CardType) (card : Card) : Prop :=
  (card.type ≠ CardType.COUNTESS →
    (playCard g pid ci tid gt).2.ok = false ∧ (playCard g pid ci tid gt).1 = g) ∧
  (card.type = CardType.COUNTESS → (playCard g pid ci tid gt).2.ok = true)

/-- C8 — Countess forced play: a participant whose hand holds the rank-7
Countess together with a rank-5 Prince or rank-6 King has any other card
rejected with no state change, while playing the Countess is accepted. -/
theorem claim_C8_countess_forced (g : LoveLetterGame) (pid : String) (ci : Int)
    (tid : Option String) (gt : Option CardType) (player current : LPlayer)
    (card : Card) (hpl : g.getPlayer pid = some player)
    (hcur : g.getCurrentPlayer = some current) (hid : current.id = pid)
    (hci0 : 0 ≤ ci) (hcard : player.hand.get? ci.toNat = some card)
    (hmust : mustPlayCountess player = true) :
    CountessForcedSpec g pid ci tid gt card := by
  obtain ⟨hlen, hget⟩ := List.get?_eq_some.mp hcard
  have hbound : ¬(ci < 0 ∨ (player.hand.length : Int) ≤ ci) := by omega
  constructor
  · intro hnc
    unfold playCard
    rw [hpl, hcur]
    dsimp only
    rw [if_neg (by simp [hid]), dif_neg hbound]
    rw [if_pos ?hcond]
    case hcond =>
      refine ⟨hmust, ?_⟩
      rw [show player.hand.get ⟨ci.toNat, by omega⟩ = card from hget]
      exact hnc
    exact ⟨rfl, rfl⟩
  · intro hc
    unfold playCard
    rw [hpl, hcur]
    dsimp only
    rw [if_neg (by simp [hid]), dif_neg hbound]
    rw [if_neg ?hcond2]
    case hcond2 =>
      intro hcontra
      apply hcontra.2
      rw [show player.hand.get ⟨ci.toNat, by omega⟩ = card from hget]
      exact hc
    have hct : (player.hand.get ⟨ci.toNat, by omega⟩).type = CardType.COUNTESS := by
      rw [show player.hand.get ⟨ci.toNat, by omega⟩ = card from hget]
      exact hc
    unfold LoveLetterGame.executeCard
    rw [hct]
    rfl

/-- Current participant of the C8 witness, holding Countess and King. -/
def pC8 : LPlayer :=
  { id := "p1", name := "A", hand := [⟨14, .COUNTESS, 7⟩, ⟨13, .KING, 6⟩],
    discardPile := [], eliminated := false, protectedFlag := false, tokens := 0 }

/-- Concrete game for the C8 witness. -/
def gC8 : LoveLetterGame :=
  { roomId := "w", players :=
      [pC8,
       { id := "p2", name := "B", hand := [⟨0, .GUARD, 1⟩], discardPile := [],
         eliminated := false, protectedFlag := false, tokens := 0 }],
    deck := [⟨1, .GUARD, 1⟩, ⟨2, .GUARD, 1⟩], removedCards := [],
    currentPlayerIndex := 0, phase := .PLAYING }

/-- Witness instantiating C8: the King at index 1 is rejected, the
Countess at index 0 is accepted. -/
theorem claim_C8_countess_forced_witness :
    CountessForcedSpec gC8 "p1" 1 (some "p2") none ⟨13, .KING, 6⟩ ∧
    CountessForcedSpec gC8 "p1" 0 none none ⟨14, .COUNTESS, 7⟩ :=
  ⟨claim_C8_countess_forced gC8 "p1" 1 (some "p2") none pC8 pC8 ⟨13, .KING, 6⟩
      (by decide) (by decide) rfl (by decide) (by decide) (by decide),
   claim_C8_countess_forced gC8 "p1" 0 none none pC8 pC8 ⟨14, .COUNTESS, 7⟩
      (by decide) (by decide) rfl (by decide) (by decide) (by decide)⟩

/-! ## Claim C1: card conservation across a play -/

/-- A reachable-shaped round position: 12 cards in the deck, 1 removed,
current participant p1 holding the Princess and a Guard after the turn
draw, p2 holding a Guard — 16 cards in all. -/
def gC1 : LoveLetterGame :=
  { roomId := "w", players :=
      [{ id := "p1", name := "A", hand := [⟨15, .PRINCESS, 8⟩, ⟨0, .GUARD, 1⟩],
         discardPile := [], eliminated := false, protectedFlag := false, tokens := 0 },
       { id := "p2", name := "B", hand := [⟨5, .PRIEST, 2⟩], discardPile := [],
         eliminated := false, protectedFlag := false, tokens := 0 }],
    deck := [⟨1, .GUARD, 1⟩, ⟨2, .GUARD, 1⟩, ⟨3, .GUARD, 1⟩, ⟨4, .GUARD, 1⟩,
      ⟨6, .PRIEST, 2⟩, ⟨7, .BARON, 3⟩, ⟨8, .BARON, 3⟩, ⟨9, .HANDMAID, 4⟩,
      ⟨10, .HANDMAID, 4⟩, ⟨11, .PRINCE, 5⟩, ⟨12, .PRINCE, 5⟩, ⟨13, .KING, 6⟩],
    removedCards := [⟨14, .COUNTESS, 7⟩], currentPlayerIndex := 0,
    phase := .PLAYING }

/-- C1 — the conservation claim fails on the code: from a legal 16-card
position, the current participant playing the Princess is eliminated
(executeCard flushes the whole hand to the discard pile), and `playCard`
then pushes the played card to the discard pile a second time; the
accounting afterwards holds 17 card slots and the Princess object sits
twice in the discard pile. -/
theorem claim_C1_conservation_violated :
    llTotalCards gC1 = 16 ∧
    (playCard gC1 "p1" 0 none none).2.ok = true ∧
    llTotalCards (playCard gC1 "p1" 0 none none).1 = 17 ∧
    (llAllCards gC1).count ⟨15, .PRINCESS, 8⟩ = 1 ∧
    (llAllCards (playCard gC1 "p1" 0 none none).1).count ⟨15, .PRINCESS, 8⟩ = 2 := by
  refine ⟨by decide, by decide, by decide, by decide, by decide⟩

/-! ## Claim C10: duplicate-id join replaces the record -/

theorem find?_map_replace_L (pid : String) (fresh : LPlayer)
    (hf : fresh.id = pid) :
    ∀ (l : List LPlayer) (q : LPlayer), l.find? (fun p => p.id = pid) = some q →
    (l.map (fun p => if p.id = pid then fresh else p)).find?
      (fun p => p.id = pid) = some fresh := by
  intro l
  induction l with
  | nil => intro q hq; simp at hq
  | cons a t ih =>
    intro q hq
    by_cases ha : a.id = pid
    · simp [List.find?_cons, ha, hf]
    · rw [List.find?_cons_of_neg _ (by simpa using ha)] at hq
      simp only [List.map_cons, if_neg ha]
      rw [List.find?_cons_of_neg _ (by simpa using ha)]
      exact ih q hq

theorem find?_map_replace_M (pid : String) (fresh : MPlayer)
    (hf : fresh.id = pid) :
    ∀ (l : List MPlayer) (q : MPlayer), l.find? (fun p => p.id = pid) = some q →
    (l.map (fun p => if p.id = pid then fresh else p)).find?
      (fun p => p.id = pid) = some fresh := by
  intro l
  induction l with
  | nil => intro q hq; simp at hq
  | cons a t ih =>
    intro q hq
    by_cases ha : a.id = pid
    · simp [List.find?_cons, ha, hf]
    · rw [List.find?_cons_of_neg _ (by simpa using ha)] at hq
      simp only [List.map_cons, if_neg ha]
      rw [List.find?_cons_of_neg _ (by simpa using ha)]
      exact ih q hq

/-- C10 — duplicate-id join: in both engines, `addPlayer` with an already
registered id below capacity returns true, keeps the participant count,
and silently replaces the record with a fresh default one. -/
theorem claim_C10_duplicate_join :
    (∀ (g : LoveLetterGame) (pid pname : String) (q : LPlayer),
      g.players.length < 4 → g.getPlayer pid = some q →
      (g.addPlayer pid pname).2 = true ∧
      (g.addPlayer pid pname).1.players.length = g.players.length ∧
      (g.addPlayer pid pname).1.getPlayer pid = some
        { id := pid, name := pname, hand := [], discardPile := [],
          eliminated := false, protectedFlag := false, tokens := 0 }) ∧
    (∀ (g : MemoryBattleGame) (pid pname : String) (q : MPlayer),
      g.players.length < 2 → g.players.find? (fun p => p.id = pid) = some q →
      (g.addPlayer pid pname).2 = true ∧
      (g.addPlayer pid pname).1.players.length = g.players.length ∧
      (g.addPlayer pid pname).1.players.find? (fun p => p.id = pid) = some
        { id := pid, name := pname,
          avatar := if g.players.length = 0 then "👤" else "👥",
          score := 0, isReady := false }) := by
  constructor
  · intro g pid pname q hcap hq
    have hq' : g.players.find? (fun p => p.id = pid) = some q := hq
    have hpq := List.find?_some hq'
    have hany : g.players.any (fun p => p.id = pid) = true := by
      rw [List.any_eq_true]
      exact ⟨q, List.mem_of_find?_eq_some hq', hpq⟩
    unfold LoveLetterGame.addPlayer
    rw [if_neg (by omega)]
    dsimp only
    rw [if_pos hany]
    refine ⟨rfl, by simp, ?_⟩
    exact find?_map_replace_L pid _ rfl g.players q hq'
  · intro g pid pname q hcap hq
    have hpq := List.find?_some hq
    have hany : g.players.any (fun p => p.id = pid) = true := by
      rw [List.any_eq_true]
      exact ⟨q, List.mem_of_find?_eq_some hq, hpq⟩
    unfold MemoryBattleGame.addPlayer msetPlayer
    rw [if_neg (by omega)]
    dsimp only
    rw [if_pos hany]
    refine ⟨rfl, by simp, ?_⟩
    exact find?_map_replace_M pid _ rfl g.players q hq

/-- Love Letter game for the C10 witness: id p1 is already registered. -/
def gC10L : LoveLetterGame :=
  { roomId := "w", players :=
      [{ id := "p1", name := "Old", hand := [⟨0, .GUARD, 1⟩],
         discardPile := [⟨5, .PRIEST, 2⟩], eliminated := true,
         protectedFlag := true, tokens := 3 }],
    deck := [], removedCards := [], currentPlayerIndex := 0, phase := .WAITING }

/-- Memory Battle game for the C10 witness: id a is already registered. -/
def gC10M : MemoryBattleGame :=
  { roomId := "m", phase := .WAITING, gridSize := "4x4", cards := [],
    players := [{ id := "a", name := "Old", avatar := "👤", score := 5, isReady := true }],
    currentPlayerIndex := 0, flippedIndices := [], matchedPairs := 0,
    totalPairs := 8, turnTimeLeft := 30 }

/-- Witness instantiating C10 on both engines with concrete duplicate
joins. -/
theorem claim_C10_duplicate_join_witness :
    ((gC10L.addPlayer "p1" "New").2 = true ∧
      (gC10L.addPlayer "p1" "New").1.players.length = gC10L.players.length ∧
      (gC10L.addPlayer "p1" "New").1.getPlayer "p1" = some
        { id := "p1", name := "New", hand := [], discardPile := [],
          eliminated := false, protectedFlag := false, tokens := 0 }) ∧
    ((gC10M.addPlayer "a" "New").2 = true ∧
      (gC10M.addPlayer "a" "New").1.players.length = gC10M.players.length ∧
      (gC10M.addPlayer "a" "New").1.players.find? (fun p => p.id = "a") = some
        { id := "a", name := "New",
          avatar := if gC10M.players.length = 0 then "👤" else "👥",
          score := 0, isReady := false }) :=
  ⟨claim_C10_duplicate_join.1 gC10L "p1" "New"
      { id := "p1", name := "Old", hand := [⟨0, .GUARD, 1⟩],
        discardPile := [⟨5, .PRIEST, 2⟩], eliminated := true,
        protectedFlag := true, tokens := 3 } (by decide) (by decide),
   claim_C10_duplicate_join.2 gC10M "a" "New"
      { id := "a", name := "Old", avatar := "👤", score := 5, isReady := true }
      (by decide) (by decide)⟩

end GameHub
